import Mathlib

/-!
Shallow embedding of the asr-worker audio-download service (`src/app.py`)
and proofs of its specified request-handling properties.

The service is Flask-based configuration plumbing around two external
collaborators (the `yt_dlp` extraction library and the Google Cloud Storage
client).  We embed the handler bodies as pure Lean functions; the outcomes of
the external collaborators (extraction result, scratch-directory contents,
upload result, object-store contents) are passed in as explicit parameters,
so each theorem quantifies over every behaviour the collaborators can show.
-/

/-- A minimal JSON value model, covering everything `jsonify` produces here. -/
inductive Json where
  | null : Json
  | bool : Bool → Json
  | num : Int → Json
  | str : String → Json
  | arr : List Json → Json
  | obj : List (String × Json) → Json

/-- Lookup of a key in a JSON object field list (Python dict access `d.get(k)`;
keys are unique in a Python dict, so first-match lookup is faithful). -/
def dictGet (fs : List (String × Json)) (k : String) : Option Json :=
  match fs with
  | [] => none
  | (k2, v) :: rest => if k2 = k then some v else dictGet rest k

/-- Field lookup on a JSON value: `jget j k` is `d.get(k)` when `j` is an
object, and `none` otherwise. -/
def jget : Json → String → Option Json
  | Json.obj fs, k => dictGet fs k
  | _, _ => none

/-- Python truthiness of a JSON value (`if not video_url`). -/
def Json.truthy : Json → Bool
  | Json.null => false
  | Json.bool b => b
  | Json.num n => n != 0
  | Json.str s => s != ""
  | Json.arr xs => !xs.isEmpty
  | Json.obj fs => !fs.isEmpty

/-- Python truthiness of `d.get(k)`: `None` (absent key) is falsy. -/
def jsonTruthy : Option Json → Bool
  | none => false
  | some j => j.truthy

/-- Python truthiness of an optional string, as for environment variables:
`os.environ.get` yields `None` or a string, and `if not BUCKET_NAME` is
taken when the variable is absent or empty. -/
def truthy : Option String → Bool
  | none => false
  | some s => s != ""

/-- An optional string rendered to JSON (`None` becomes `null`). -/
def optStr : Option String → Json
  | none => Json.null
  | some s => Json.str s

/-- An optional integer rendered to JSON (`None` becomes `null`). -/
def optInt : Option Int → Json
  | none => Json.null
  | some n => Json.num n

/-- The process configuration resolved from the environment at startup:
`BUCKET_NAME`, `PROXY_URL`, and `POT_PROVIDER_URL` (the latter with default
`http://127.0.0.1:4416` already applied by `os.environ.get`). -/
structure Config where
  bucketName : Option String
  proxyUrl : Option String
  potProviderUrl : String

/-- The `yt_dlp` option dictionary as built by `get_ydl_opts` and augmented
by the handlers.  `extractor_args` maps an extractor name to its argument
dictionary, each argument holding a list of string values. -/
structure YdlOpts where
  retries : Nat
  fragment_retries : Nat
  ignoreerrors : Bool
  geo_bypass : Bool
  geo_bypass_country : String
  nocheckcertificate : Bool
  socket_timeout : Nat
  extractor_retries : Nat
  noplaylist : Bool
  http_headers : List (String × String)
  extractor_args : List (String × List (String × List String))
  outtmpl : Option String
  proxy : Option String
  cookiefile : Option String

/-- The option builder of `src/app.py` (`get_ydl_opts`): fixed reliability
parameters, browser identity headers, the `youtube` player-client list and
the `youtubepot-bgutilhttp` base-url extractor argument; the output template
is set only when a scratch directory is given, and the proxy only when
configured. -/
def get_ydl_opts (cfg : Config) (tmpdir : Option String) : YdlOpts :=
  { retries := 5
    fragment_retries := 5
    ignoreerrors := false
    geo_bypass := true
    geo_bypass_country := "US"
    nocheckcertificate := true
    socket_timeout := 60
    extractor_retries := 3
    noplaylist := true
    http_headers :=
      [("User-Agent", "Mozilla/5.0 (Windows NT 10.0; Win64; x64) AppleWebKit/537.36 (KHTML, like Gecko) Chrome/122.0.0.0 Safari/537.36"),
       ("Accept", "text/html,application/xhtml+xml,application/xml;q=0.9,*/*;q=0.8"),
       ("Accept-Language", "en-US,en;q=0.5")]
    extractor_args :=
      [("youtube", [("player_client", ["default", "mweb"])]),
       ("youtubepot-bgutilhttp", [("base_url", [cfg.potProviderUrl])])]
    outtmpl := if truthy tmpdir then tmpdir.map (fun d => d ++ "/%(id)s.%(ext)s") else none
    proxy := if truthy cfg.proxyUrl then cfg.proxyUrl else none
    cookiefile := none }

/-- Modelled from the spec: the cookie-aware Extraction Option Builder of the
other two service iterations, absent from `src/app.py`.  Spec §4.3: "if a
usable cookie file is present, prefer cookie-based authentication and omit
the token-provider extractor argument; otherwise supply the token-provider
base URL as a fallback extractor argument".  `cookieFile` is the
materializer's cookie path, already checked for existence (spec §3
CookieState invariant), so `some` means a usable cookie file is present. -/
def get_ydl_opts_cookie_aware (cfg : Config) (cookieFile : Option String)
    (tmpdir : Option String) : YdlOpts :=
  { get_ydl_opts cfg tmpdir with
    cookiefile := cookieFile
    extractor_args :=
      match cookieFile with
      | some _ => [("youtube", [("player_client", ["default", "mweb"])])]
      | none =>
        [("youtube", [("player_client", ["default", "mweb"])]),
         ("youtubepot-bgutilhttp", [("base_url", [cfg.potProviderUrl])])] }

/-- C2: the extraction parameter set built by the (cookie-aware) option
builder includes the token-provider fallback extractor argument if and only
if no usable cookie file is present: the two anti-bot strategies are
mutually exclusive by construction. -/
theorem cookie_pot_mutually_exclusive (cfg : Config) (cookieFile : Option String)
    (tmpdir : Option String) :
    ((get_ydl_opts_cookie_aware cfg cookieFile tmpdir).extractor_args.any
      (fun p => p.1 == "youtubepot-bgutilhttp")) = true ↔ cookieFile = none := by
  cases cookieFile <;> simp [get_ydl_opts_cookie_aware, get_ydl_opts]

/-- The metadata dictionary returned by `yt_dlp`'s `extract_info`; only the
fields the handlers consume.  `info['id']` is a mandatory key access, so the
id is total; the rest use `.get` with defaults and may be absent. -/
structure VideoInfo where
  id : String
  title : Option String
  duration : Option Int
  channel : Option String
  view_count : Option Int
  upload_date : Option String
  thumbnail : Option String
  formats : List (List (String × Json))

/-- The observable outcome of a `ydl.extract_info` call: a metadata
dictionary, a `yt_dlp.utils.DownloadError` with its message, or any other
exception with its message. -/
inductive ExtractOutcome where
  | ok : VideoInfo → ExtractOutcome
  | downloadError : String → ExtractOutcome
  | otherError : String → ExtractOutcome

/-- A JSON error body, `jsonify({'error': msg})`. -/
def errJson (msg : String) : Json :=
  Json.obj [("error", Json.str msg)]

/-- The MP3-locating step of `download_audio`, over the list of file names in
the scratch directory: first `glob.glob(f'{tmpdir}/{video_id}.mp3')` (a
literal pattern, matching exactly that name), then as a fallback
`glob.glob(f'{tmpdir}/*.mp3')` (`*` matches any name not starting with a
dot). -/
def find_audio_files (tmpFiles : List String) (video_id : String) : List String :=
  let primaryGlob := tmpFiles.filter (fun f => f == video_id ++ ".mp3")
  if primaryGlob.isEmpty then
    tmpFiles.filter (fun f => f.endsWith ".mp3" && !f.startsWith ".")
  else primaryGlob

/-- The `POST /download` handler (`download_audio` in `src/app.py`).
External effects appear as parameters: `extract` is the outcome of the
`ydl.extract_info(video_url, download=True)` call, `tmpFiles` the file names
present in the scratch directory afterwards, `getsize` the size
`os.path.getsize` reports for a file there, and `upload` the outcome of the
storage-client interaction (client creation, metadata attachment and
`upload_from_filename`).  Returns the JSON body and HTTP status
(`jsonify` without an explicit status is 200). -/
def download_audio (cfg : Config) (body : List (String × Json))
    (extract : ExtractOutcome) (tmpFiles : List String)
    (getsize : String → Nat) (upload : Except String Unit) : Json × Nat :=
  if jsonTruthy (dictGet body "url") = false then
    (errJson "No URL provided", 400)
  else if truthy cfg.bucketName = false then
    (errJson "BUCKET_NAME not configured", 500)
  else
    match extract with
    | ExtractOutcome.downloadError msg =>
      (errJson ("Download failed: " ++ msg), 400)
    | ExtractOutcome.otherError msg =>
      (errJson msg, 500)
    | ExtractOutcome.ok info =>
      match find_audio_files tmpFiles info.id with
      | [] => (errJson "Audio extraction failed - no mp3 file created", 500)
      | audio_file :: _ =>
        match upload with
        | Except.error msg => (errJson msg, 500)
        | Except.ok _ =>
          let bucket := cfg.bucketName.getD ""
          (Json.obj
            [("success", Json.bool true),
             ("video_id", Json.str info.id),
             ("title", Json.str (info.title.getD info.id)),
             ("channel", Json.str (info.channel.getD "Unknown")),
             ("duration_seconds", Json.num (info.duration.getD 0)),
             ("file_size_bytes", Json.num (getsize audio_file)),
             ("gcs_path", Json.str ("gs://" ++ bucket ++ "/audio/" ++ info.id ++ ".mp3")),
             ("url", Json.str ("https://storage.googleapis.com/" ++ bucket ++ "/audio/" ++ info.id ++ ".mp3"))],
           200)

/-- C1: for every request body, configuration, and collaborator behaviour,
`download_audio` either returns the success response — `success:true`,
`gcs_path` exactly `gs://<bucket>/audio/<videoId>.mp3` for the configured
bucket and the extracted video id, together with `video_id`, `title`,
`channel`, `duration_seconds`, `file_size_bytes` and an access `url`, with
status 200 — or a structured JSON error body `{error: <message>}`; being a
total function, it never terminates with an unhandled exception. -/
theorem download_audio_success_or_error (cfg : Config) (body : List (String × Json))
    (extract : ExtractOutcome) (tmpFiles : List String)
    (getsize : String → Nat) (upload : Except String Unit) :
    (∃ info sz,
       extract = ExtractOutcome.ok info ∧
       download_audio cfg body extract tmpFiles getsize upload =
        (Json.obj
          [("success", Json.bool true),
           ("video_id", Json.str info.id),
           ("title", Json.str (info.title.getD info.id)),
           ("channel", Json.str (info.channel.getD "Unknown")),
           ("duration_seconds", Json.num (info.duration.getD 0)),
           ("file_size_bytes", Json.num sz),
           ("gcs_path", Json.str ("gs://" ++ cfg.bucketName.getD "" ++ "/audio/" ++ info.id ++ ".mp3")),
           ("url", Json.str ("https://storage.googleapis.com/" ++ cfg.bucketName.getD "" ++ "/audio/" ++ info.id ++ ".mp3"))],
         200)) ∨
    (∃ msg code,
       download_audio cfg body extract tmpFiles getsize upload = (errJson msg, code)) := by
  unfold download_audio
  split
  · exact Or.inr ⟨_, _, rfl⟩
  · split
    · exact Or.inr ⟨_, _, rfl⟩
    · match extract with
      | ExtractOutcome.downloadError msg => exact Or.inr ⟨_, _, rfl⟩
      | ExtractOutcome.otherError msg => exact Or.inr ⟨_, _, rfl⟩
      | ExtractOutcome.ok info =>
        dsimp only
        split
        · exact Or.inr ⟨_, _, rfl⟩
        · match upload with
          | Except.error msg => exact Or.inr ⟨_, _, rfl⟩
          | Except.ok _ => exact Or.inl ⟨info, _, rfl, rfl⟩

/-- C5: for every request body without a `url` field, `download_audio`
returns HTTP 400 with body exactly `{"error": "No URL provided"}`, whatever
the configuration and collaborator behaviour. -/
theorem download_audio_missing_url_400 (cfg : Config) (body : List (String × Json))
    (extract : ExtractOutcome) (tmpFiles : List String)
    (getsize : String → Nat) (upload : Except String Unit)
    (h : dictGet body "url" = none) :
    download_audio cfg body extract tmpFiles getsize upload =
      (errJson "No URL provided", 400) := by
  unfold download_audio
  rw [h]
  rfl

/-- Witness for C5 at the empty request body. -/
theorem download_audio_missing_url_400_witness :
    dictGet [] "url" = none ∧
    download_audio ⟨some "b", none, "p"⟩ [] (ExtractOutcome.otherError "x") []
      (fun _ => 0) (Except.ok ()) = (errJson "No URL provided", 400) :=
  ⟨rfl, download_audio_missing_url_400 ⟨some "b", none, "p"⟩ []
    (ExtractOutcome.otherError "x") [] (fun _ => 0) (Except.ok ()) rfl⟩

/-- C10: the URL presence check runs before the bucket configuration check:
a body without a `url` field yields 400 `No URL provided` even when the
bucket name is unconfigured — the validation error takes precedence over
the configuration error. -/
theorem url_check_precedes_bucket_check (cfg : Config) (body : List (String × Json))
    (extract : ExtractOutcome) (tmpFiles : List String)
    (getsize : String → Nat) (upload : Except String Unit)
    (h : dictGet body "url" = none) (hb : truthy cfg.bucketName = false) :
    download_audio cfg body extract tmpFiles getsize upload =
      (errJson "No URL provided", 400) := by
  unfold download_audio
  rw [h]
  rfl

/-- Witness for C10: empty body and unconfigured bucket give the 400. -/
theorem url_check_precedes_bucket_check_witness :
    dictGet [] "url" = none ∧
    truthy (Config.mk none none "p").bucketName = false ∧
    download_audio ⟨none, none, "p"⟩ [] (ExtractOutcome.otherError "x") []
      (fun _ => 0) (Except.ok ()) = (errJson "No URL provided", 400) :=
  ⟨rfl, rfl, url_check_precedes_bucket_check ⟨none, none, "p"⟩ []
    (ExtractOutcome.otherError "x") [] (fun _ => 0) (Except.ok ()) rfl rfl⟩

/-- C7: when the extraction library raises its `DownloadError`,
`download_audio` returns HTTP 400 with an error body whose message contains
the underlying library message (as a suffix of `Download failed: <msg>`). -/
theorem download_error_maps_400 (cfg : Config) (body : List (String × Json))
    (msg : String) (tmpFiles : List String)
    (getsize : String → Nat) (upload : Except String Unit)
    (h1 : jsonTruthy (dictGet body "url") = true)
    (h2 : truthy cfg.bucketName = true) :
    ∃ s, download_audio cfg body (ExtractOutcome.downloadError msg) tmpFiles getsize upload
        = (errJson s, 400) ∧ ∃ p, s = p ++ msg := by
  refine ⟨"Download failed: " ++ msg, ?_, "Download failed: ", rfl⟩
  unfold download_audio
  rw [h1, h2]
  rfl

/-- Witness for C7 at a concrete request and a concrete library message. -/
theorem download_error_maps_400_witness :
    jsonTruthy (dictGet [("url", Json.str "u")] "url") = true ∧
    truthy (Config.mk (some "b") none "p").bucketName = true ∧
    ∃ s, download_audio ⟨some "b", none, "p"⟩ [("url", Json.str "u")]
        (ExtractOutcome.downloadError "boom") [] (fun _ => 0) (Except.ok ())
        = (errJson s, 400) ∧ ∃ p, s = p ++ "boom" :=
  ⟨rfl, rfl, download_error_maps_400 ⟨some "b", none, "p"⟩ [("url", Json.str "u")]
    "boom" [] (fun _ => 0) (Except.ok ()) rfl rfl⟩

/-- C8: the MP3-locating step uses the filename matching the video id first,
falls back to scanning the scratch directory for any MP3 when that name is
absent, and when neither method finds a file the handler answers 500
`Audio extraction failed - no mp3 file created`, whatever the upload
collaborator would have done (no upload is attempted). -/
theorem mp3_location_fallback (tmpFiles : List String) (video_id : String) :
    ((video_id ++ ".mp3") ∈ tmpFiles →
       find_audio_files tmpFiles video_id =
         tmpFiles.filter (fun f => f == video_id ++ ".mp3") ∧
       find_audio_files tmpFiles video_id ≠ []) ∧
    ((video_id ++ ".mp3") ∉ tmpFiles →
       find_audio_files tmpFiles video_id =
         tmpFiles.filter (fun f => f.endsWith ".mp3" && !f.startsWith ".")) ∧
    (∀ (cfg : Config) (body : List (String × Json)) (info : VideoInfo)
       (getsize : String → Nat) (upload : Except String Unit),
       jsonTruthy (dictGet body "url") = true → truthy cfg.bucketName = true →
       info.id = video_id → find_audio_files tmpFiles video_id = [] →
       download_audio cfg body (ExtractOutcome.ok info) tmpFiles getsize upload =
         (errJson "Audio extraction failed - no mp3 file created", 500)) := by
  refine ⟨?_, ?_, ?_⟩
  · intro hmem
    have hne : tmpFiles.filter (fun f => f == video_id ++ ".mp3") ≠ [] := by
      intro hnil
      have : (video_id ++ ".mp3") ∈ tmpFiles.filter (fun f => f == video_id ++ ".mp3") := by
        simp [List.mem_filter, hmem]
      rw [hnil] at this
      exact (List.not_mem_nil _ this)
    unfold find_audio_files
    rw [if_neg (by simpa [List.isEmpty_iff] using hne)]
    exact ⟨rfl, hne⟩
  · intro hmem
    have hnil : tmpFiles.filter (fun f => f == video_id ++ ".mp3") = [] := by
      rw [List.filter_eq_nil_iff]
      intro a ha hbeq
      exact hmem (by rwa [eq_of_beq hbeq] at ha)
    unfold find_audio_files
    rw [if_pos (by simpa [List.isEmpty_iff] using hnil)]
  · intro cfg body info getsize upload h1 h2 hid hfind
    subst hid
    simp only [download_audio, h1, h2, hfind]
    rfl

/-- Witness for C8: the fallback scan locates `x.mp3` when `abc.mp3` is
absent, and with an empty scratch directory the handler answers the 500. -/
theorem mp3_location_fallback_witness :
    (¬ (("abc" ++ ".mp3") ∈ ["x.mp3"])) ∧
    find_audio_files ["x.mp3"] "abc" =
      (["x.mp3"].filter (fun f => f.endsWith ".mp3" && !f.startsWith ".")) ∧
    download_audio ⟨some "b", none, "p"⟩ [("url", Json.str "u")]
      (ExtractOutcome.ok ⟨"abc", none, none, none, none, none, none, []⟩)
      [] (fun _ => 0) (Except.ok ()) =
      (errJson "Audio extraction failed - no mp3 file created", 500) :=
  ⟨by decide,
   (mp3_location_fallback ["x.mp3"] "abc").2.1 (by decide),
   (mp3_location_fallback [] "abc").2.2 ⟨some "b", none, "p"⟩ [("url", Json.str "u")]
     ⟨"abc", none, none, none, none, none, none, []⟩ (fun _ => 0) (Except.ok ())
     rfl rfl rfl rfl⟩

/-- The `POST /info` handler (`get_video_info` in `src/app.py`): URL
presence check, then metadata-only extraction; any exception (including a
`DownloadError`) is caught by the single `except Exception` and answered
with 500.  No bucket check is performed. -/
def get_video_info (cfg : Config) (body : List (String × Json))
    (extract : ExtractOutcome) : Json × Nat :=
  if jsonTruthy (dictGet body "url") = false then
    (errJson "No URL provided", 400)
  else
    match extract with
    | ExtractOutcome.downloadError msg => (errJson msg, 500)
    | ExtractOutcome.otherError msg => (errJson msg, 500)
    | ExtractOutcome.ok info =>
      (Json.obj
        [("video_id", Json.str info.id),
         ("title", optStr info.title),
         ("channel", optStr info.channel),
         ("duration_seconds", optInt info.duration),
         ("view_count", optInt info.view_count),
         ("upload_date", optStr info.upload_date),
         ("thumbnail", optStr info.thumbnail)],
       200)

/-- One entry of the `POST /formats` response: the selected keys of a raw
`yt_dlp` format dictionary (`f.get(...)`, absent keys become `null`). -/
def formatEntry (f : List (String × Json)) : Json :=
  Json.obj
    [("format_id", (dictGet f "format_id").getD Json.null),
     ("ext", (dictGet f "ext").getD Json.null),
     ("resolution", (dictGet f "resolution").getD Json.null),
     ("filesize", (dictGet f "filesize").getD Json.null),
     ("acodec", (dictGet f "acodec").getD Json.null),
     ("vcodec", (dictGet f "vcodec").getD Json.null)]

/-- The `POST /formats` handler (`list_formats` in `src/app.py`): like
`get_video_info` but returning the enumerated formats.  No bucket check. -/
def list_formats (cfg : Config) (body : List (String × Json))
    (extract : ExtractOutcome) : Json × Nat :=
  if jsonTruthy (dictGet body "url") = false then
    (errJson "No URL provided", 400)
  else
    match extract with
    | ExtractOutcome.downloadError msg => (errJson msg, 500)
    | ExtractOutcome.otherError msg => (errJson msg, 500)
    | ExtractOutcome.ok info =>
      (Json.obj
        [("video_id", Json.str info.id),
         ("title", optStr info.title),
         ("formats", Json.arr (info.formats.map formatEntry))],
       200)

/-- An object-store entry as the storage client reports it: name, size,
creation time (already ISO-formatted here, `None` possible), and optional
attached metadata. -/
structure Blob where
  name : String
  size : Int
  time_created : Option String
  metadata : Option (List (String × String))

/-- The store-side listing `bucket.list_blobs(prefix='audio/')`: every
object of the bucket whose name starts with the given string, in listing
order. -/
def list_blobs (store : List Blob) (pre : String) : List Blob :=
  store.filter (fun b => b.name.startsWith pre)

/-- The JSON entry `list_audio_files` builds for one blob. -/
def blobEntry (bucket : String) (b : Blob) : Json :=
  Json.obj
    [("name", Json.str b.name),
     ("size_bytes", Json.num b.size),
     ("created", optStr b.time_created),
     ("metadata",
       match b.metadata with
       | none => Json.null
       | some m => Json.obj (m.map (fun p => (p.1, Json.str p.2)))),
     ("url", Json.str ("https://storage.googleapis.com/" ++ bucket ++ "/" ++ b.name))]

/-- The `GET /list` handler (`list_audio_files` in `src/app.py`): bucket
check, then a fresh listing of the store under the `audio/` prefix; one
response entry per listed object and `count = len(files)`.  `store` is the
bucket contents at call time, `Except.error` the case where the storage
client raises. -/
def list_audio_files (cfg : Config) (store : Except String (List Blob)) : Json × Nat :=
  if truthy cfg.bucketName = false then
    (errJson "BUCKET_NAME not configured", 500)
  else
    match store with
    | Except.error msg => (errJson msg, 500)
    | Except.ok objs =>
      let files := (list_blobs objs "audio/").map (blobEntry (cfg.bucketName.getD ""))
      (Json.obj [("files", Json.arr files), ("count", Json.num files.length)], 200)

/-- The `DELETE /delete/<video_id>` handler (`delete_audio` in
`src/app.py`): bucket check, then `blob.exists()` on `audio/<id>.mp3`; if
present, delete it and answer success (200), else answer 404
`File not found`.  Returns the response together with the store contents
after the call. -/
def delete_audio (cfg : Config) (store : List Blob) (video_id : String) :
    (Json × Nat) × List Blob :=
  if truthy cfg.bucketName = false then
    ((errJson "BUCKET_NAME not configured", 500), store)
  else
    let key := "audio/" ++ video_id ++ ".mp3"
    if store.any (fun b => b.name == key) then
      ((Json.obj [("success", Json.bool true),
                  ("message", Json.str ("Deleted " ++ video_id ++ ".mp3"))], 200),
       store.filter (fun b => !(b.name == key)))
    else
      ((errJson "File not found", 404), store)

/-- The `GET /health` handler: configuration presence flags only, no
external calls, no bucket requirement. -/
def health (cfg : Config) : Json × Nat :=
  (Json.obj
    [("status", Json.str "healthy"),
     ("bucket_configured", Json.bool (truthy cfg.bucketName)),
     ("proxy_configured", Json.bool (truthy cfg.proxyUrl)),
     ("pot_provider_url", Json.str cfg.potProviderUrl)],
   200)

/-- Modelled from the spec: the BatchDownload handler (`POST /batch`, spec
§4.4), absent from `src/app.py`: "sequentially invoke the same logic as
DownloadAudio for each URL; per-item exceptions are caught and recorded as
`{url, error}` rather than aborting the batch; aggregate and return all
per-item results in input order".  `dl` is the single-download logic: its
per-URL result, or the message of the exception it raised. -/
def batch_download (urls : List String) (dl : String → Except String Json) : Json :=
  Json.obj
    [("results", Json.arr (urls.map (fun u =>
       match dl u with
       | Except.ok r => r
       | Except.error e => Json.obj [("url", Json.str u), ("error", Json.str e)])))]

/-- C9: with a configured bucket and a live store, the `ListAudioFiles`
response is built from a fresh listing: the `files` array has one entry per
object under the `audio/` prefix at call time, and `count` is exactly the
length of that array, equal to the number of such objects. -/
theorem list_audio_files_count (cfg : Config) (objs : List Blob)
    (h : truthy cfg.bucketName = true) :
    ∃ files,
      list_audio_files cfg (Except.ok objs) =
        (Json.obj [("files", Json.arr files), ("count", Json.num files.length)], 200) ∧
      files.length = (objs.filter (fun b => b.name.startsWith "audio/")).length := by
  refine ⟨(list_blobs objs "audio/").map (blobEntry (cfg.bucketName.getD "")), ?_, ?_⟩
  · unfold list_audio_files
    rw [h]
    rfl
  · simp [list_blobs]

/-- Witness for C9 on a two-object store with one object under `audio/`. -/
theorem list_audio_files_count_witness :
    truthy (Config.mk (some "b") none "p").bucketName = true ∧
    ∃ files,
      list_audio_files ⟨some "b", none, "p"⟩
          (Except.ok [⟨"audio/a.mp3", 5, none, none⟩, ⟨"other.txt", 1, none, none⟩]) =
        (Json.obj [("files", Json.arr files), ("count", Json.num files.length)], 200) ∧
      files.length =
        (([⟨"audio/a.mp3", 5, none, none⟩, ⟨"other.txt", 1, none, none⟩] : List Blob).filter
          (fun b => b.name.startsWith "audio/")).length :=
  ⟨rfl, list_audio_files_count ⟨some "b", none, "p"⟩
    [⟨"audio/a.mp3", 5, none, none⟩, ⟨"other.txt", 1, none, none⟩] rfl⟩

/-- C4: with a configured bucket, `DeleteAudio` first checks existence of
`audio/<videoId>.mp3`: if the object exists it is deleted and the handler
answers success with status 200; if it does not exist the handler answers
404 `File not found` and the store is unchanged — so deleting a nonexistent
id yields 404 regardless of prior state. -/
theorem delete_audio_exists_or_404 (cfg : Config) (store : List Blob)
    (video_id : String) (h : truthy cfg.bucketName = true) :
    (store.any (fun b => b.name == "audio/" ++ video_id ++ ".mp3") = true →
       delete_audio cfg store video_id =
         ((Json.obj [("success", Json.bool true),
                     ("message", Json.str ("Deleted " ++ video_id ++ ".mp3"))], 200),
          store.filter (fun b => !(b.name == "audio/" ++ video_id ++ ".mp3")))) ∧
    (store.any (fun b => b.name == "audio/" ++ video_id ++ ".mp3") = false →
       delete_audio cfg store video_id = ((errJson "File not found", 404), store)) := by
  constructor <;> intro hx <;> simp only [delete_audio, h, hx] <;> rfl

/-- Witness for C4: deleting `abc` from an empty store answers 404 and
leaves the store empty. -/
theorem delete_audio_exists_or_404_witness :
    truthy (Config.mk (some "b") none "p").bucketName = true ∧
    ([] : List Blob).any (fun b => b.name == "audio/" ++ "abc" ++ ".mp3") = false ∧
    delete_audio ⟨some "b", none, "p"⟩ [] "abc" = ((errJson "File not found", 404), []) :=
  ⟨rfl, rfl, (delete_audio_exists_or_404 ⟨some "b", none, "p"⟩ [] "abc" rfl).2 rfl⟩

/-- C6: when the bucket name is unconfigured, every storage-touching handler
(download with a URL present, list, delete) answers the configuration error
with status 500 at request time, while the health endpoint and the
metadata-only endpoints (`/info`, `/formats`) remain usable and answer with
status 200. -/
theorem missing_bucket_config_error (cfg : Config)
    (h : truthy cfg.bucketName = false) :
    (∀ (body : List (String × Json)) (extract : ExtractOutcome)
       (tmpFiles : List String) (getsize : String → Nat) (upload : Except String Unit),
       jsonTruthy (dictGet body "url") = true →
       download_audio cfg body extract tmpFiles getsize upload =
         (errJson "BUCKET_NAME not configured", 500)) ∧
    (∀ store, list_audio_files cfg store = (errJson "BUCKET_NAME not configured", 500)) ∧
    (∀ store video_id,
       delete_audio cfg store video_id =
         ((errJson "BUCKET_NAME not configured", 500), store)) ∧
    health cfg =
      (Json.obj
        [("status", Json.str "healthy"),
         ("bucket_configured", Json.bool false),
         ("proxy_configured", Json.bool (truthy cfg.proxyUrl)),
         ("pot_provider_url", Json.str cfg.potProviderUrl)], 200) ∧
    (∀ body info, jsonTruthy (dictGet body "url") = true →
       (get_video_info cfg body (ExtractOutcome.ok info)).2 = 200) ∧
    (∀ body info, jsonTruthy (dictGet body "url") = true →
       (list_formats cfg body (ExtractOutcome.ok info)).2 = 200) := by
  refine ⟨?_, ?_, ?_, ?_, ?_, ?_⟩
  · intro body extract tmpFiles getsize upload hurl
    unfold download_audio
    rw [hurl, h]
    rfl
  · intro store
    unfold list_audio_files
    rw [h]
    rfl
  · intro store video_id
    unfold delete_audio
    rw [h]
    rfl
  · unfold health
    rw [h]
  · intro body info hurl
    unfold get_video_info
    rw [hurl]
    rfl
  · intro body info hurl
    unfold list_formats
    rw [hurl]
    rfl

/-- Witness for C6 at the unconfigured-bucket configuration. -/
theorem missing_bucket_config_error_witness :
    truthy (Config.mk none none "p").bucketName = false ∧
    download_audio ⟨none, none, "p"⟩ [("url", Json.str "u")]
      (ExtractOutcome.otherError "x") [] (fun _ => 0) (Except.ok ()) =
      (errJson "BUCKET_NAME not configured", 500) ∧
    list_audio_files ⟨none, none, "p"⟩ (Except.ok []) =
      (errJson "BUCKET_NAME not configured", 500) ∧
    delete_audio ⟨none, none, "p"⟩ [] "abc" =
      ((errJson "BUCKET_NAME not configured", 500), []) ∧
    (health ⟨none, none, "p"⟩).2 = 200 ∧
    (get_video_info ⟨none, none, "p"⟩ [("url", Json.str "u")]
      (ExtractOutcome.ok ⟨"abc", none, none, none, none, none, none, []⟩)).2 = 200 :=
  ⟨rfl,
   (missing_bucket_config_error ⟨none, none, "p"⟩ rfl).1 [("url", Json.str "u")]
     (ExtractOutcome.otherError "x") [] (fun _ => 0) (Except.ok ()) rfl,
   (missing_bucket_config_error ⟨none, none, "p"⟩ rfl).2.1 (Except.ok []),
   (missing_bucket_config_error ⟨none, none, "p"⟩ rfl).2.2.1 [] "abc",
   rfl,
   (missing_bucket_config_error ⟨none, none, "p"⟩ rfl).2.2.2.2.1 [("url", Json.str "u")]
     ⟨"abc", none, none, none, none, none, none, []⟩ rfl⟩

/-- C3: `BatchDownload(urls)` returns exactly `len(urls)` results, in input
order: the i-th result is the single-download result of the i-th URL when
that logic succeeds, and `{url, error}` for that URL when it raises — one
item's failure never removes or reorders the others. -/
theorem batch_download_results_aligned (urls : List String)
    (dl : String → Except String Json) :
    ∃ results,
      jget (batch_download urls dl) "results" = some (Json.arr results) ∧
      results.length = urls.length ∧
      ∀ i (h : i < urls.length) (h2 : i < results.length),
        results.get ⟨i, h2⟩ =
          match dl (urls.get ⟨i, h⟩) with
          | Except.ok r => r
          | Except.error e =>
            Json.obj [("url", Json.str (urls.get ⟨i, h⟩)), ("error", Json.str e)] := by
  refine ⟨urls.map (fun u =>
    match dl u with
    | Except.ok r => r
    | Except.error e => Json.obj [("url", Json.str u), ("error", Json.str e)]),
    rfl, List.length_map _ _, ?_⟩
  intro i h h2
  simp [List.get_eq_getElem, List.getElem_map]

/-- Witness for C3: a two-URL batch in which the second item fails. -/
theorem batch_download_results_aligned_witness :
    ∃ results,
      jget (batch_download ["a", "b"]
        (fun u => if u == "a" then Except.ok (Json.str "r") else Except.error "e"))
        "results" = some (Json.arr results) ∧
      results.length = (["a", "b"] : List String).length ∧
      ∀ i (h : i < (["a", "b"] : List String).length) (h2 : i < results.length),
        results.get ⟨i, h2⟩ =
          match (fun u => if u == "a" then Except.ok (Json.str "r") else Except.error "e")
              ((["a", "b"] : List String).get ⟨i, h⟩) with
          | Except.ok r => r
          | Except.error e =>
            Json.obj [("url", Json.str ((["a", "b"] : List String).get ⟨i, h⟩)),
                      ("error", Json.str e)] :=
  batch_download_results_aligned ["a", "b"]
    (fun u => if u == "a" then Except.ok (Json.str "r") else Except.error "e")
